import Mathlib

/-!
Verification of the AgenticOSKevsAcademy prospecting components.

This file gives a shallow embedding, in Lean 4, of the pure decision logic of
four components of the repository, and proves (or refutes) the behavioural
claims made about them in the specification:

* `src/implementation/account_manager.py` — the per-tenant Instagram account
  quota manager (`InstagramAccount.is_available`,
  `AccountManager.get_available_account`, `_get_account_stats`,
  `mark_blocked`, `unblock_account`);
* `src/implementation/lead_scorer.py` — the 0–100 lead scoring engine
  (`LeadScorer.calculate_score` and its sub-score helpers);
* `src/implementation/message_generator.py` — the spintax expansion engine
  (`expand_spintax`);
* `src/implementation/api_server.py` — the sliding-window rate limiter
  (`RateLimiter.is_allowed`).

Modelling conventions:

* `datetime` instants are modelled as natural numbers (`Nat`); Python's
  `datetime.min` (the value substituted for a null `last_used_at` in the sort
  key) is modelled as `0`.  Real timestamps are strictly positive.
* Python machine floats appear only in the rate limiter (`time.time()`) and in
  `engagement_rate`; both are modelled by exact rationals `ℚ`.  All the
  comparisons involved are simple order comparisons, so the rounding behaviour
  of doubles is not observable in the claims under scrutiny.
* Network calls are modelled by their results: a call that may raise is an
  `Option` value (`none` = the exception path).
* `random.choice` is modelled by an explicit stream of natural numbers
  (`picks : List Nat`, exhausted stream defaulting to `0`); the element chosen
  from `options` is `options[(pick) % options.length]`, which ranges over
  exactly the choices `random.choice` can make.
-/

namespace AgenticOS

/-! ## Account manager (`src/implementation/account_manager.py`) -/

/-- Embeds the dataclass `InstagramAccount` (account_manager.py lines 31–66).
`session_id`/`session_data` are omitted: they are opaque credentials never
inspected by the selection logic. -/
structure InstagramAccount where
  id : Nat
  tenant_id : String
  username : String
  status : String
  daily_limit : Nat
  hourly_limit : Nat
  last_used_at : Option Nat
  blocked_until : Option Nat
  dms_sent_today : Nat
  dms_sent_last_hour : Nat
deriving Repr, DecidableEq

/-- Embeds the Python truthiness test `self.blocked_until and
self.blocked_until > datetime.now()` (a datetime object is always truthy,
so the test is: the field is non-null and strictly in the future). -/
def blocked_in_future (now : Nat) : Option Nat → Bool
  | some b => decide (now < b)
  | none => false

/-- Embeds `InstagramAccount.is_available` (account_manager.py lines 47–58):
four early-return checks, in source order. -/
def is_available (now : Nat) (a : InstagramAccount) : Bool :=
  if a.status ≠ "active" then false
  else if blocked_in_future now a.blocked_until then false
  else if a.daily_limit ≤ a.dms_sent_today then false
  else if a.hourly_limit ≤ a.dms_sent_last_hour then false
  else true

/-- Embeds `InstagramAccount.remaining_today = max(0, daily_limit -
dms_sent_today)` (lines 60–62); `Nat` subtraction is exactly `max 0` of the
integer difference. -/
def remaining_today (a : InstagramAccount) : Nat :=
  a.daily_limit - a.dms_sent_today

/-- Embeds `InstagramAccount.remaining_this_hour` (lines 64–66). -/
def remaining_this_hour (a : InstagramAccount) : Nat :=
  a.hourly_limit - a.dms_sent_last_hour

/-- Embeds the sort key component `a.last_used_at or datetime.min`
(line 162): a null `last_used_at` is replaced by `datetime.min`, modelled
as `0`. -/
def lastUsedKey (a : InstagramAccount) : Nat :=
  a.last_used_at.getD 0

/-- The strict "sorts before" relation induced by the Python sort key
`(-a.remaining_today, a.last_used_at or datetime.min)` (line 162):
`x` sorts strictly before `y` iff `x` has more remaining daily quota, or the
quotas tie and `x` has the older (smaller) last-used key. -/
def selKeyLt (x y : InstagramAccount) : Bool :=
  decide (remaining_today y < remaining_today x) ||
    (decide (remaining_today x = remaining_today y) &&
      decide (lastUsedKey x < lastUsedKey y))

/-- The head of the stable sort of `l` by `selKeyLt`, i.e. the first element
of `l` attaining the minimal sort key.  `available.sort(...)` followed by
`available[0]` (lines 162–164) returns exactly this element: Python's sort is
stable, so ties keep their original order. -/
def pickBest (l : List InstagramAccount) : Option InstagramAccount :=
  match l with
  | [] => none
  | a :: rest => some (rest.foldl (fun best c => if selKeyLt c best then c else best) a)

/-- Embeds `AccountManager._get_account_stats` (lines 203–237).  The two
counting queries are modelled by their joint result `remote`; the
`except` clause (lines 235–237) returns `{'today': 0, 'last_hour': 0}`,
i.e. on a lookup failure the account is reported as having sent nothing. -/
def get_account_stats (remote : Option (Nat × Nat)) : Nat × Nat :=
  match remote with
  | some s => s
  | none => (0, 0)

/-- A row of the `instagram_accounts` table as consumed by
`get_tenant_accounts` (lines 120–138). -/
structure AccountRow where
  id : Nat
  tenant_id : String
  username : String
  status : String
  daily_limit : Nat
  hourly_limit : Nat
  last_used_at : Option Nat
  blocked_until : Option Nat
deriving Repr, DecidableEq

/-- Embeds the construction of an `InstagramAccount` from a table row plus the
result of the usage-stats lookup for its username (lines 122–138). -/
def mkAccount (row : AccountRow) (remote : Option (Nat × Nat)) : InstagramAccount :=
  let stats := get_account_stats remote
  { id := row.id
    tenant_id := row.tenant_id
    username := row.username
    status := row.status
    daily_limit := row.daily_limit
    hourly_limit := row.hourly_limit
    last_used_at := row.last_used_at
    blocked_until := row.blocked_until
    dms_sent_today := stats.1
    dms_sent_last_hour := stats.2 }

/-- Embeds `AccountManager.get_tenant_accounts` (lines 112–143).  `fetch` is
the result of the table query for the tenant (`none` = the query raised, in
which case the `except` clause returns `[]`); `statsOf` gives the result of
the per-account usage-stats lookup. -/
def get_tenant_accounts (fetch : Option (List AccountRow))
    (statsOf : String → Option (Nat × Nat)) : List InstagramAccount :=
  match fetch with
  | none => []
  | some rows => rows.map (fun r => mkAccount r (statsOf r.username))

/-- Embeds `AccountManager.get_available_account` (lines 145–168): filter the
tenant's accounts by `is_available`, return `None` if the filter is empty,
else sort by `(-remaining_today, last_used_at or datetime.min)` and return the
first element. -/
def get_available_account (now : Nat) (fetch : Option (List AccountRow))
    (statsOf : String → Option (Nat × Nat)) : Option InstagramAccount :=
  pickBest ((get_tenant_accounts fetch statsOf).filter (is_available now))

/-- Embeds the row update performed by `AccountManager.mark_blocked`
(lines 249–263): status becomes `"blocked"` and `blocked_until` becomes
`now + hours` (hours converted to seconds of model time). -/
def mark_blocked (now hours : Nat) (row : AccountRow) : AccountRow :=
  { row with status := "blocked", blocked_until := some (now + hours * 3600) }

/-- Embeds the row update performed by `AccountManager.unblock_account`
(lines 265–277): status becomes `"active"` and `blocked_until` is cleared. -/
def unblock_account (row : AccountRow) : AccountRow :=
  { row with status := "active", blocked_until := none }

/-! ## Lead scorer (`src/implementation/lead_scorer.py`) -/

/-- Python's substring test `sub in s`, on character lists:
some suffix of `s` has `sub` as a prefix (the empty string is in every
string). -/
def listContainsSub (sub : List Char) : List Char → Bool
  | [] => sub.isEmpty
  | c :: tl => sub.isPrefixOf (c :: tl) || listContainsSub sub tl

/-- Python's substring test `sub in s` on strings. -/
def strContains (s sub : String) : Bool :=
  listContainsSub sub.toList s.toList

/-- Python's `str.lower()`, character by character.  (Lean's `Char.toLower`
lowers the ASCII range; the accented keyword letters in the source tables are
already lower case, so the two agree on every comparison the scorer
performs.) -/
def lowerStr (s : String) : String :=
  ⟨s.data.map Char.toLower⟩

/-- A word character for the regex `\b` boundary (`[A-Za-z0-9_]`). -/
def isWordChar (c : Char) : Bool :=
  c.isAlphanum || c == '_'

/-- The four alternatives of the title regex
`r'\b(dr\.|dra\.|dr |dra )\b'` (lead_scorer.py line 151). -/
def titleAlts : List (List Char) :=
  [['d', 'r', '.'], ['d', 'r', 'a', '.'], ['d', 'r', ' '], ['d', 'r', 'a', ' ']]

/-- One regex alternative matches at the head of `cs`: the alternative is a
prefix of `cs` and, because every alternative ends in a non-word character,
the closing `\b` requires the next character to exist and be a word
character. -/
def altHit (alt cs : List Char) : Bool :=
  alt.isPrefixOf cs &&
    match cs.drop alt.length with
    | c :: _ => isWordChar c
    | [] => false

/-- Scan for a match of the title regex.  `prevIsWord` records whether the
character before the current position is a word character (false at the start
of the string); the opening `\b` before the leading `d` requires it to be
false. -/
def scanTitleAux : Bool → List Char → Bool
  | _, [] => false
  | prevIsWord, c :: tl =>
    (!prevIsWord && titleAlts.any (fun alt => altHit alt (c :: tl))) ||
      scanTitleAux (isWordChar c) tl

/-- Embeds `re.search(r'\b(dr\.|dra\.|dr |dra )\b', full_name + ' ' + bio)`
(line 151) as a Boolean: does a match exist anywhere in the string. -/
def title_regex_hit (s : String) : Bool :=
  scanTitleAux false s.toList

/-- The alternatives of the plain-alternation regex on line 159; `re.search`
with no anchors or boundaries is just a substring test for one of them. -/
def business_keywords : List String :=
  ["empresa", "negócio", "business", "founder", "ceo", "startup", "clínica",
   "consultório"]

/-- Embeds `re.search(r'(empresa|negócio|business|founder|ceo|startup|clínica|consultório)', bio)` (line 159). -/
def business_regex_hit (s : String) : Bool :=
  business_keywords.any (fun k => strContains s k)

/-- Embeds `LeadScorer.DECISION_MAKER_KEYWORDS` (lines 60–71), in source
order. -/
def decision_maker_keywords : List String :=
  ["ceo", "fundador", "founder", "dono", "proprietário", "diretor",
   "empresário", "empreendedor", "sócio", "gestor", "gerente",
   "executivo", "c-level", "head", "líder", "coordenador",
   "médico", "médica", "dr.", "dra.", "advogado", "advogada",
   "dentista", "arquiteto", "engenheiro", "psicólogo", "nutricionista",
   "fisioterapeuta", "coach", "consultor", "consultora",
   "entrepreneur", "business owner", "manager", "director"]

/-- Embeds `LeadScorer.INTEREST_KEYWORDS` (lines 74–82), in source
(insertion) order. -/
def interest_keywords : List (String × List String) :=
  [("marketing", ["marketing", "growth", "vendas", "sales", "leads", "tráfego"]),
   ("tecnologia", ["tech", "startup", "saas", "software", "automação", "ia", "ai"]),
   ("negocios", ["business", "negócio", "empresa", "empreend", "lucro", "faturamento"]),
   ("estetica", ["estética", "beleza", "clínica", "procedimento", "harmonização"]),
   ("saude", ["saúde", "bem-estar", "fitness", "nutrição", "medicina"]),
   ("financas", ["investimento", "finanças", "renda", "dinheiro", "patrimônio"]),
   ("educacao", ["curso", "mentoria", "treinamento", "ensino", "educação"])]

/-- Embeds `LeadScorer.HIGH_VALUE_LOCATIONS` (lines 85–92), in source
order. -/
def high_value_locations : List String :=
  ["sp", "são paulo", "sao paulo", "sampa",
   "rj", "rio de janeiro", "rio",
   "bh", "belo horizonte",
   "brasília", "brasilia", "df",
   "curitiba", "porto alegre", "florianópolis", "salvador",
   "recife", "fortaleza", "campinas"]

/-- Embeds the `location_map` dictionary inside `_detect_location`
(lines 320–328). -/
def location_map : List (String × String) :=
  [("sp", "São Paulo"), ("são paulo", "São Paulo"), ("sao paulo", "São Paulo"),
   ("rj", "Rio de Janeiro"), ("rio de janeiro", "Rio de Janeiro"),
   ("bh", "Belo Horizonte"), ("belo horizonte", "Belo Horizonte"),
   ("df", "Brasília"), ("brasília", "Brasília"),
   ("curitiba", "Curitiba"), ("porto alegre", "Porto Alegre"),
   ("florianópolis", "Florianópolis"), ("salvador", "Salvador"),
   ("recife", "Recife"), ("fortaleza", "Fortaleza"), ("campinas", "Campinas")]

/-- Python's `str.title()` restricted to what `_detect_location` feeds it
(lower-case words): the first letter of each alphabetic run is upper-cased,
the rest lower-cased. -/
def titleCaseAux : Bool → List Char → List Char
  | _, [] => []
  | prevAlpha, c :: tl =>
    (if c.isAlpha && !prevAlpha then c.toUpper
     else if c.isAlpha then c.toLower else c) :: titleCaseAux c.isAlpha tl

/-- Python's `str.title()`. -/
def titleCase (s : String) : String :=
  ⟨titleCaseAux false s.toList⟩

/-- Dictionary lookup `location_map.get(location, location.title())`
(line 329). -/
def locFormat (l : String) : String :=
  match location_map.find? (fun kv => kv.1 == l) with
  | some kv => kv.2
  | none => titleCase l

/-- Embeds `LeadScorer._detect_location` (lines 311–331): empty bio detects
nothing; otherwise the first location of `HIGH_VALUE_LOCATIONS` occurring in
the lower-cased bio is returned, formatted through `location_map`. -/
def detect_location (bio : String) : Option String :=
  if bio = "" then none
  else
    (high_value_locations.find? (fun l => strContains (lowerStr bio) l)).map locFormat

/-- Embeds `LeadScorer._detect_interests` (lines 296–309): for each interest
category (in table order) whose keyword list has a member occurring in the
lower-cased bio, the category is collected.  (The source's final
`list(set(...))` only scrambles the order of the already-distinct categories;
no caller depends on the order.) -/
def detect_interests (bio : String) : List String :=
  if bio = "" then []
  else
    (interest_keywords.filter
      (fun kv => kv.2.any (fun k => strContains (lowerStr bio) k))).map (·.1)

/-- Embeds `LeadScorer._is_decision_maker` (lines 262–268):
some decision-maker keyword occurs in `(bio + ' ' + full_name).lower()`. -/
def is_decision_maker (bio full_name : String) : Bool :=
  decision_maker_keywords.any
    (fun k => strContains (lowerStr (bio ++ " " ++ full_name)) k)

/-- Embeds the `professions` table of `_detect_profession` (lines 274–287),
in source (insertion) order. -/
def professions_table : List (String × List String) :=
  [("médico", ["médico", "médica", "dr.", "dra.", "medicina"]),
   ("dentista", ["dentista", "odonto", "cirurgião dentista"]),
   ("advogado", ["advogado", "advogada", "jurídico", "direito"]),
   ("empresário", ["empresário", "empresária", "empreendedor", "founder", "ceo"]),
   ("coach", ["coach", "mentora", "mentor"]),
   ("consultor", ["consultor", "consultora", "consultoria"]),
   ("nutricionista", ["nutricionista", "nutri", "nutrição"]),
   ("psicólogo", ["psicólogo", "psicóloga", "psico", "terapeuta"]),
   ("arquiteto", ["arquiteto", "arquiteta", "arquitetura"]),
   ("designer", ["designer", "design", "ux", "ui"]),
   ("desenvolvedor", ["developer", "desenvolvedor", "programador", "tech"]),
   ("marketing", ["marketing", "growth", "social media", "tráfego"])]

/-- Embeds `LeadScorer._detect_profession` (lines 270–294): the first
profession (in table order) with a keyword occurring in
`(bio + ' ' + full_name).lower()`. -/
def detect_profession (bio full_name : String) : Option String :=
  (professions_table.find?
    (fun kv => kv.2.any
      (fun k => strContains (lowerStr (bio ++ " " ++ full_name)) k))).map (·.1)

/-- Embeds `LeadPriority` (lead_scorer.py lines 14–19). -/
inductive LeadPriority where
  | hot
  | warm
  | cold
  | nurturing
deriving Repr, DecidableEq

/-- The profile dictionary as consumed by `LeadScorer.calculate_score`.
Field defaults are the `profile.get(...)` defaults used by the source
(`following_count` defaults to `1`, `is_private` to `True`, numeric fields to
`0`); `Option` fields model keys that may be absent or `None` (both falsy in
the source).  `recent_posts` is the length of the `recent_posts` list: the
scorer only ever reads its truthiness and length. -/
structure Profile where
  username : String := ""
  bio : Option String := none
  full_name : Option String := none
  followers_count : Nat := 0
  following_count : Nat := 1
  posts_count : Nat := 0
  engagement_rate : ℚ := 0
  is_private : Bool := true
  is_business : Bool := false
  category : Option String := none
  recent_posts : Nat := 0
  posting_frequency : Option String := none
deriving Repr, DecidableEq

/-- Python truthiness of an optional string (`None` and `''` are falsy). -/
def optStrTruthy : Option String → Bool
  | some s => s ≠ ""
  | none => false

/-- Embeds the dataclass `LeadScore` (lead_scorer.py lines 22–50). -/
structure LeadScore where
  username : String
  total_score : Nat
  priority : LeadPriority
  bio_score : Nat := 0
  engagement_score : Nat := 0
  profile_score : Nat := 0
  recency_score : Nat := 0
  detected_profession : Option String := none
  detected_interests : List String := []
  detected_location : Option String := none
  is_decision_maker : Bool := false
  recommended_template : String := "standard"
  personalization_hooks : List String := []
  approach_notes : Option String := none
deriving Repr, DecidableEq

/-- Embeds `LeadScorer._calculate_bio_score` (lines 146–170); `bio` and
`full_name` arrive already lower-cased from `calculate_score`. -/
def calculate_bio_score (bio full_name : String) : Nat :=
  let p1 := if title_regex_hit (full_name ++ " " ++ bio) then 5 else 0
  let p2 := if is_decision_maker bio full_name then 10 else 0
  let p3 := if business_regex_hit bio then 5 else 0
  let p4 := if (detect_location bio).isSome then 5 else 0
  let p5 := if detect_interests bio ≠ [] then 5 else 0
  min (p1 + p2 + p3 + p4 + p5) 30

/-- Embeds `LeadScorer._calculate_engagement_score` (lines 172–203).  The
float division `followers / following` and the `engagement_rate` float are
modelled by exact rationals. -/
def calculate_engagement_score (p : Profile) : Nat :=
  let followers := p.followers_count
  let following := p.following_count
  let er := p.engagement_rate
  let p1 :=
    if 0 < following then
      if (1 : ℚ) / 2 ≤ (followers : ℚ) / (following : ℚ) ∧
          (followers : ℚ) / (following : ℚ) ≤ 3 then 10
      else if (3 : ℚ) / 10 ≤ (followers : ℚ) / (following : ℚ) ∧
          (followers : ℚ) / (following : ℚ) ≤ 5 then 5
      else 0
    else 0
  let p2 :=
    if 500 ≤ followers ∧ followers ≤ 50000 then 10
    else if 200 ≤ followers ∧ followers ≤ 100000 then 5
    else 0
  let p3 :=
    if 5 ≤ er then 10
    else if 2 ≤ er then 7
    else if 1 ≤ er then 3
    else 0
  min (p1 + p2 + p3) 30

/-- Embeds `LeadScorer._calculate_profile_score` (lines 205–231); note the
bio length test uses the raw (un-lowered) bio from the profile dict, and the
`category` test is Python truthiness. -/
def calculate_profile_score (p : Profile) : Nat :=
  let p1 := if !p.is_private then 10 else 0
  let p2 :=
    if optStrTruthy p.bio && decide (10 < (p.bio.getD "").length) then 5 else 0
  let p3 :=
    if 50 ≤ p.posts_count then 5
    else if 20 ≤ p.posts_count then 3
    else 0
  let p4 :=
    if p.is_business then 5
    else if optStrTruthy p.category then 3
    else 0
  min (p1 + p2 + p3 + p4) 25

/-- Embeds `LeadScorer._calculate_recency_score` (lines 233–249); the first
test is on the `recent_posts` list (truthiness and length), the second is a
substring test on `posting_frequency or ''` (note `'muito ativo'` contains
`'ativo'`, both tests are kept as in the source). -/
def calculate_recency_score (p : Profile) : Nat :=
  let p1 :=
    if 3 ≤ p.recent_posts then 10
    else if 1 ≤ p.recent_posts then 5
    else 0
  let pf := p.posting_frequency.getD ""
  let p2 := if strContains pf "muito ativo" || strContains pf "ativo" then 5 else 0
  min (p1 + p2) 15

/-- Embeds `LeadScorer._determine_priority` (lines 251–260). -/
def determine_priority (score : Nat) : LeadPriority :=
  if 70 ≤ score then .hot
  else if 50 ≤ score then .warm
  else if 40 ≤ score then .cold
  else .nurturing

/-- Embeds `LeadScorer._recommend_template` (lines 333–340); the source reads
only `score.total_score`. -/
def recommend_template (total_score : Nat) : String :=
  if 70 ≤ total_score then "ultra_personalized"
  else if 50 ≤ total_score then "personalized"
  else "standard"

/-- Python's `str.strip()` on character lists: drop whitespace from both
ends. -/
def stripChars (cs : List Char) : List Char :=
  ((cs.dropWhile Char.isWhitespace).reverse.dropWhile Char.isWhitespace).reverse

/-- Python's `str.strip()`. -/
def stripStr (s : String) : String :=
  ⟨stripChars s.toList⟩

/-- Embeds `LeadScorer._generate_hooks` (lines 342–372). -/
def generate_hooks (p : Profile) (s : LeadScore) : List String :=
  let h1 :=
    match s.detected_profession with
    | some prof => ["profissão: " ++ prof]
    | none => []
  let h2 :=
    match s.detected_location with
    | some loc => ["localização: " ++ loc]
    | none => []
  let h3 :=
    if s.detected_interests ≠ [] then
      ["interesses: " ++ String.intercalate ", " s.detected_interests]
    else []
  let bio := p.bio.getD ""
  let h4 :=
    if optStrTruthy p.bio && decide (20 < bio.length) then
      let first_part :=
        if strContains bio "|" then
          stripStr ⟨bio.toList.takeWhile (· ≠ '|')⟩
        else ⟨bio.toList.take 50⟩
      ["bio: " ++ first_part]
    else []
  let h5 :=
    if 10000 ≤ p.followers_count then
      ["influencer: " ++ toString p.followers_count ++ " seguidores"]
    else if 1000 ≤ p.followers_count then
      ["audiência: " ++ toString p.followers_count ++ " seguidores"]
    else []
  h1 ++ h2 ++ h3 ++ h4 ++ h5

/-- Embeds `LeadScorer._generate_approach_notes` (lines 374–392). -/
def generate_approach_notes (s : LeadScore) : String :=
  let n1 := if s.is_decision_maker then ["DECISOR - Abordagem direta sobre ROI"] else []
  let n2 :=
    if s.priority = LeadPriority.hot then ["HOT LEAD - Prioridade máxima"]
    else if s.priority = LeadPriority.warm then ["WARM LEAD - Personalizar bem"]
    else []
  let n3 :=
    match s.detected_profession with
    | some prof => ["Mencionar que trabalha com " ++ prof ++ "s"]
    | none => []
  let n4 :=
    match s.detected_location with
    | some loc => ["Possível referência local: " ++ loc]
    | none => []
  let notes := n1 ++ n2 ++ n3 ++ n4
  if notes ≠ [] then String.intercalate " | " notes else "Abordagem padrão"

/-- Embeds `LeadScorer.calculate_score` (lines 94–144): lower-case the bio and
full name, compute the four capped sub-scores, sum them, derive priority,
detections, template recommendation, hooks and notes, exactly in source
order. -/
def calculate_score (p : Profile) : LeadScore :=
  let bio := lowerStr (p.bio.getD "")
  let full_name := lowerStr (p.full_name.getD "")
  let bs := calculate_bio_score bio full_name
  let es := calculate_engagement_score p
  let ps := calculate_profile_score p
  let rs := calculate_recency_score p
  let total := bs + es + ps + rs
  let s0 : LeadScore :=
    { username := p.username
      total_score := total
      priority := determine_priority total
      bio_score := bs
      engagement_score := es
      profile_score := ps
      recency_score := rs
      detected_profession := detect_profession bio full_name
      detected_interests := detect_interests bio
      detected_location := detect_location bio
      is_decision_maker := is_decision_maker bio full_name
      recommended_template := recommend_template total
      personalization_hooks := []
      approach_notes := none }
  let s1 := { s0 with personalization_hooks := generate_hooks p s0 }
  { s1 with approach_notes := some (generate_approach_notes s1) }

/-! ## Spintax engine (`src/implementation/message_generator.py`) -/

/-- Helper for the regex `\{[^{}]+\}`: after at least one content character,
is the current run of non-brace characters closed by a `\x7d`? -/
def closeAfter : List Char → Bool
  | [] => false
  | c :: tl => c = '}' || (c ≠ '{' && closeAfter tl)

/-- Helper for the regex `\{[^{}]+\}`: does the list start with one or more
non-brace characters followed by a `\x7d`? -/
def contentThen : List Char → Bool
  | [] => false
  | c :: tl => c ≠ '{' && c ≠ '}' && closeAfter tl

/-- Embeds `re.search(r'\{([^{}]+)\}', text)` as a Boolean (the loop guard of
`expand_spintax`, message_generator.py line 48): a match exists iff some
`\x7b` is followed by one or more non-brace characters and a closing
`\x7d`. -/
def hasSpinMatch : List Char → Bool
  | [] => false
  | c :: tl => (c = '{' && contentThen tl) || hasSpinMatch tl

/-- Python's `str.split('|')` on character lists: always non-empty, possibly
containing empty pieces. -/
def splitBar : List Char → List (List Char)
  | [] => [[]]
  | c :: tl =>
    if c = '|' then [] :: splitBar tl
    else
      match splitBar tl with
      | [] => [[c]]
      | p :: ps => (c :: p) :: ps

/-- One pass of `re.sub(r'\{([^{}]+)\}', replace_match, text)`
(message_generator.py line 49).  The scan walks the text left to right;
`pending = some buf` means an unclosed `\x7b` has been seen and `buf` holds
the (reversed) non-brace characters read since it.  A closing `\x7d` after a
non-empty buffer is a match: `replace_match` splits the content on `'|'`,
consumes one pick from the random stream and inserts the chosen alternative
stripped of surrounding whitespace (`random.choice(options).strip()`,
line 43).  A second `\x7b` abandons the previous one as literal text, and a
`\x7d` with an empty buffer leaves `\x7b\x7d` as literal text — exactly the
positions at which the regex cannot match.  Returns the rewritten text and
the remaining pick stream. -/
def spinPass : List Nat → Option (List Char) → List Char → List Char × List Nat
  | picks, none, [] => ([], picks)
  | picks, some buf, [] => ('{' :: buf.reverse, picks)
  | picks, none, c :: tl =>
    if c = '{' then spinPass picks (some []) tl
    else
      let (out, pk) := spinPass picks none tl
      (c :: out, pk)
  | picks, some buf, c :: tl =>
    if c = '{' then
      let (out, pk) := spinPass picks (some []) tl
      ('{' :: (buf.reverse ++ out), pk)
    else if c = '}' then
      match buf with
      | [] =>
        let (out, pk) := spinPass picks none tl
        ('{' :: '}' :: out, pk)
      | _ :: _ =>
        let alts := splitBar buf.reverse
        let chosen := stripChars (alts.getD (picks.headD 0 % alts.length) [])
        let (out, pk) := spinPass picks.tail none tl
        (chosen ++ out, pk)
    else spinPass picks (some (c :: buf)) tl

/-- The `while re.search(...) and iteration < max_iterations` loop of
`expand_spintax` (lines 45–50), with the fuel starting at
`max_iterations = 10`. -/
def expandLoop : Nat → List Nat → List Char → List Char
  | 0, _, cs => cs
  | n + 1, picks, cs =>
    if hasSpinMatch cs then
      let (cs2, picks2) := spinPass picks none cs
      expandLoop n picks2 cs2
    else cs

/-- Embeds `expand_spintax` (message_generator.py lines 22–52), parametrised
by the stream of choices the calls to `random.choice` will make (index into
the options list, taken modulo its length).  The `if not text` early return
coincides with the loop guard failing on the empty string. -/
def expand_spintax (picks : List Nat) (s : String) : String :=
  ⟨expandLoop 10 picks s.toList⟩

/-- No `\x7b` or `\x7d` occurs in the string. -/
def noBraces (s : String) : Bool :=
  s.toList.all (fun c => c ≠ '{' && c ≠ '}')

/-! ## Sliding-window rate limiter (`src/implementation/api_server.py`) -/

/-- The `info` dictionary returned by `RateLimiter.is_allowed`
(api_server.py lines 128–133). -/
structure RateLimInfo where
  limit : Nat
  remaining : Int
  reset : Int
  window : Nat
deriving Repr, DecidableEq

/-- Python's `min(list)` on a non-empty list of rationals (the `[]` case is
never reached: the source only calls it under a non-emptiness guard). -/
def listMin : List ℚ → ℚ
  | [] => 0
  | c :: tl => tl.foldl min c

/-- Embeds `RateLimiter.is_allowed` (api_server.py lines 103–142) for one
client: given the limiter configuration, the client's stored timestamp list
and the current time, returns `(allowed, info, new timestamp list)`.
Timestamps strictly older than `now - window_seconds` are purged (the source
keeps `req_time > window_start`); with `kept` the purged list, the call is
rejected iff `len(kept) >= max_requests`, in which case the list is left at
`kept` and `info.reset` is the clamped time until the oldest kept timestamp
exits the window; otherwise `now` is appended and `info.remaining` is
decremented to `max_requests - len(kept) - 1`.  Python's `int(...)` truncates
toward zero; it is applied only to `oldest + window - now`, which is positive
for every kept timestamp, so it coincides with the floor used here. -/
def is_allowed (max_requests window_seconds : Nat) (times : List ℚ) (now : ℚ) :
    Bool × RateLimInfo × List ℚ :=
  let window_start := now - (window_seconds : ℚ)
  let kept := times.filter (fun t => window_start < t)
  let current_count := kept.length
  let remaining : Int := max 0 ((max_requests : Int) - current_count)
  let reset_time : Int :=
    if kept.length ≠ 0 then Rat.floor (listMin kept + (window_seconds : ℚ) - now)
    else (window_seconds : Int)
  let info : RateLimInfo :=
    { limit := max_requests
      remaining := remaining
      reset := max 0 reset_time
      window := window_seconds }
  if max_requests ≤ current_count then
    (false, info, kept)
  else
    (true, { info with remaining := remaining - 1 }, kept ++ [now])

/-! ## Concrete test fixtures used by the theorems below -/

/-- An ordinary active account row (witness fixture). -/
def rowW : AccountRow :=
  { id := 1, tenant_id := "tenant1", username := "insta_w", status := "active",
    daily_limit := 50, hourly_limit := 10, last_used_at := none, blocked_until := none }

/-- A healthy stats lookup reporting one send today. -/
def statsW : String → Option (Nat × Nat) := fun _ => some (1, 0)

/-- The account built from `rowW` under `statsW`. -/
def acctW : InstagramAccount := mkAccount rowW (some (1, 0))

/-- An active, unblocked row whose usage-stats lookup will fail. -/
def rowX : AccountRow :=
  { id := 7, tenant_id := "tenant2", username := "insta_x", status := "active",
    daily_limit := 50, hourly_limit := 10, last_used_at := none, blocked_until := none }

/-- A row blocked until instant 100 with its stored status `"blocked"`. -/
def rowBlocked : AccountRow :=
  { id := 3, tenant_id := "tenant3", username := "insta_blk", status := "blocked",
    daily_limit := 50, hourly_limit := 10, last_used_at := none, blocked_until := some 100 }

/-- The account built from `rowBlocked` with a clean stats lookup. -/
def acctBlocked : InstagramAccount := mkAccount rowBlocked (some (0, 0))

/-- Tenant "acme", account A: daily limit 50, previously used at instant 5. -/
def rowA : AccountRow :=
  { id := 10, tenant_id := "acme", username := "insta_a", status := "active",
    daily_limit := 50, hourly_limit := 10, last_used_at := some 5, blocked_until := none }

/-- Tenant "acme", account B: daily limit 50, never used. -/
def rowB : AccountRow :=
  { id := 11, tenant_id := "acme", username := "insta_b", status := "active",
    daily_limit := 50, hourly_limit := 10, last_used_at := none, blocked_until := none }

/-- Usage stats for tenant "acme": A has sent 49 today, B has sent 10. -/
def statsAcme : String → Option (Nat × Nat) :=
  fun u => if u = "insta_a" then some (49, 0) else some (10, 0)

/-- The account built from `rowB` under `statsAcme`. -/
def acctB : InstagramAccount := mkAccount rowB (some (10, 0))

/-- A profile with exactly the attributes of the spec's "hot" scenario
(followers 150000, bio containing "CEO", public, 120 posts, 3 recent posts)
and every other field at its dictionary default. -/
def profileC4min : Profile :=
  { username := "ceo_minimal", bio := some "CEO", followers_count := 150000,
    following_count := 1, posts_count := 120, is_private := false, recent_posts := 3 }

/-- A profile with the attributes of the spec's "hot" scenario and favourable
remaining fields (healthy follower ratio, engagement rate 5, business account,
informative bio, active posting). -/
def profileC4rich : Profile :=
  { username := "ceo_rich", bio := some "CEO business sp fitness dra x",
    followers_count := 150000, following_count := 50000, posts_count := 120,
    engagement_rate := 5, is_private := false, is_business := true,
    recent_posts := 3, posting_frequency := some "ativo" }

/-- A profile whose bio mentions no profession keyword yet whose numeric
signals reach a total score of 70. -/
def profileC9 : Profile :=
  { username := "plain_strong", bio := some "aaaaaaaaaaaa", followers_count := 1000,
    following_count := 1000, posts_count := 50, engagement_rate := 5,
    is_private := false, is_business := true, recent_posts := 3,
    posting_frequency := some "ativo" }

/-- The spintax input `\x7ba|b\x7d`. -/
def spinAB : String := ⟨['{', 'a', '|', 'b', '}']⟩

/-- The nested spintax input `\x7ba|\x7bb|c\x7d\x7d`. -/
def spinNested : String := ⟨['{', 'a', '|', '{', 'b', '|', 'c', '}', '}']⟩

/-- The malformed spintax input `\x7boi` (opening brace never closed). -/
def spinMal : String := ⟨['{', 'o', 'i']⟩

/-- The whitespace-padded spintax input `\x7b a | b \x7d`. -/
def spinSpaced : String := ⟨['{', ' ', 'a', ' ', '|', ' ', 'b', ' ', '}']⟩

/-! ## Helper lemmas -/

/-- Unpacking `is_available`: a true result means all four source checks
passed. -/
lemma is_available_spec (now : Nat) (a : InstagramAccount)
    (h : is_available now a = true) :
    a.status = "active" ∧
      (a.blocked_until = none ∨ ∃ b, a.blocked_until = some b ∧ b ≤ now) ∧
      a.dms_sent_today < a.daily_limit ∧ a.dms_sent_last_hour < a.hourly_limit := by
  unfold is_available at h
  split_ifs at h with h1 h2 h3 h4
  refine ⟨by simpa using h1, ?_, by omega, by omega⟩
  cases hb : a.blocked_until with
  | none => exact Or.inl rfl
  | some b =>
    refine Or.inr ⟨b, rfl, ?_⟩
    rw [hb] at h2
    simp [blocked_in_future] at h2
    omega

/-- `selKeyLt` as a proposition. -/
lemma selKeyLt_iff (x y : InstagramAccount) :
    selKeyLt x y = true ↔
      (remaining_today y < remaining_today x ∨
        (remaining_today x = remaining_today y ∧ lastUsedKey x < lastUsedKey y)) := by
  simp [selKeyLt]

/-- `selKeyLt` is false exactly when the key of `x` is not strictly smaller
than the key of `y`. -/
lemma selKeyLt_eq_false_iff (x y : InstagramAccount) :
    selKeyLt x y = false ↔
      ¬(remaining_today y < remaining_today x ∨
        (remaining_today x = remaining_today y ∧ lastUsedKey x < lastUsedKey y)) := by
  rw [← Bool.not_eq_true, selKeyLt_iff]

/-- The fold inside `pickBest` returns the first element of `a :: l`
attaining the minimal sort key: it is the initial element or a member of the
list, and no element of `a :: l` sorts strictly before it. -/
lemma foldl_best (l : List InstagramAccount) :
    ∀ a : InstagramAccount,
      ((l.foldl (fun best c => if selKeyLt c best then c else best) a) = a ∨
        (l.foldl (fun best c => if selKeyLt c best then c else best) a) ∈ l) ∧
      ∀ b, (b = a ∨ b ∈ l) →
        selKeyLt b (l.foldl (fun best c => if selKeyLt c best then c else best) a) = false := by
  induction l with
  | nil =>
    intro a
    refine ⟨Or.inl rfl, ?_⟩
    rintro b (rfl | hb)
    · simp only [List.foldl_nil]
      rw [selKeyLt_eq_false_iff]
      omega
    · simp at hb
  | cons c tl ih =>
    intro a
    by_cases hlt : selKeyLt c a = true
    · have hstep : (if selKeyLt c a = true then c else a) = c := if_pos hlt
      constructor
      · rcases (ih c).1 with h | h
        · right; rw [List.foldl_cons, hstep, h]; exact List.mem_cons_self _ _
        · right; rw [List.foldl_cons, hstep]; exact List.mem_cons_of_mem _ h
      · rintro b (rfl | hb)
        · -- b is the initial element, displaced by c
          rw [List.foldl_cons, hstep]
          have hcR := (ih c).2 c (Or.inl rfl)
          rw [selKeyLt_eq_false_iff] at hcR ⊢
          rw [selKeyLt_iff] at hlt
          omega
        · rcases List.mem_cons.mp hb with rfl | hb
          · rw [List.foldl_cons, hstep]; exact (ih b).2 b (Or.inl rfl)
          · rw [List.foldl_cons, hstep]; exact (ih c).2 b (Or.inr hb)
    · have hstep : (if selKeyLt c a = true then c else a) = a := if_neg hlt
      constructor
      · rcases (ih a).1 with h | h
        · left; rw [List.foldl_cons, hstep, h]
        · right; rw [List.foldl_cons, hstep]; exact List.mem_cons_of_mem _ h
      · rintro b (rfl | hb)
        · rw [List.foldl_cons, hstep]; exact (ih b).2 b (Or.inl rfl)
        · rcases List.mem_cons.mp hb with rfl | hb
          · -- b is the discarded candidate c
            rw [List.foldl_cons, hstep]
            have haR := (ih a).2 a (Or.inl rfl)
            rw [selKeyLt_eq_false_iff] at haR ⊢
            have hlt' : selKeyLt b a = false := by
              rw [← Bool.not_eq_true]; exact hlt
            rw [selKeyLt_eq_false_iff] at hlt'
            omega
          · rw [List.foldl_cons, hstep]; exact (ih a).2 b (Or.inr hb)

/-- A selected account is a member of the candidate list. -/
lemma pickBest_mem {l : List InstagramAccount} {a : InstagramAccount}
    (h : pickBest l = some a) : a ∈ l := by
  cases l with
  | nil => simp [pickBest] at h
  | cons x tl =>
    simp only [pickBest, Option.some_inj] at h
    rcases (foldl_best tl x).1 with h' | h'
    · rw [h] at h'; rw [h']; exact List.mem_cons_self _ _
    · rw [h] at h'; exact List.mem_cons_of_mem _ h'

/-- No candidate sorts strictly before the selected account. -/
lemma pickBest_min {l : List InstagramAccount} {a : InstagramAccount}
    (h : pickBest l = some a) : ∀ b ∈ l, selKeyLt b a = false := by
  cases l with
  | nil => simp [pickBest] at h
  | cons x tl =>
    simp only [pickBest, Option.some_inj] at h
    intro b hb
    rw [← h]
    rcases List.mem_cons.mp hb with rfl | hb
    · exact (foldl_best tl b).2 b (Or.inl rfl)
    · exact (foldl_best tl x).2 b (Or.inr hb)

/-! ## Claims about the account quota manager -/

/-- C1: every account returned by `get_available_account` satisfies, at the
moment of selection, `dms_sent_today < daily_limit`,
`dms_sent_last_hour < hourly_limit`, `status = "active"`, and
`blocked_until` null or elapsed. -/
theorem selected_account_is_available :
    ∀ (now : Nat) (fetch : Option (List AccountRow))
      (statsOf : String → Option (Nat × Nat)) (a : InstagramAccount),
      get_available_account now fetch statsOf = some a →
      a.dms_sent_today < a.daily_limit ∧ a.dms_sent_last_hour < a.hourly_limit ∧
        a.status = "active" ∧
        (a.blocked_until = none ∨ ∃ b, a.blocked_until = some b ∧ b ≤ now) := by
  intro now fetch statsOf a h
  have hmem := pickBest_mem h
  have hav : is_available now a = true := (List.mem_filter.mp hmem).2
  obtain ⟨h1, h2, h3, h4⟩ := is_available_spec now a hav
  exact ⟨h3, h4, h1, h2⟩

/-- Witness for C1 at a concrete tenant: the lone active account `acctW`
is selected and satisfies all four conjuncts at instant 100. -/
theorem selected_account_is_available_witness :
    get_available_account 100 (some [rowW]) statsW = some acctW ∧
      (acctW.dms_sent_today < acctW.daily_limit ∧
        acctW.dms_sent_last_hour < acctW.hourly_limit ∧
        acctW.status = "active" ∧
        (acctW.blocked_until = none ∨ ∃ b, acctW.blocked_until = some b ∧ b ≤ 100)) :=
  ⟨by decide, selected_account_is_available 100 (some [rowW]) statsW acctW (by decide)⟩

/-- C2 (refuted, code bug): when the usage-stats lookup for an account fails,
`_get_account_stats` swallows the exception and reports zero sends, so
`get_available_account` still offers the account — it fails open, not closed.
Here the lone account of the tenant has a failing stats lookup (`fun _ =>
none`) and is nevertheless returned, with its counters read as zero. -/
theorem stats_error_fails_open :
    get_available_account 100 (some [rowX]) (fun _ => none) = some (mkAccount rowX none) ∧
      (mkAccount rowX none).dms_sent_today = 0 ∧
      (mkAccount rowX none).dms_sent_last_hour = 0 := by
  decide

/-- C5 (refuted): an account whose stored status is `"blocked"` is *not*
treated as available once `blocked_until` has elapsed: `is_available`
requires `status == 'active'` before it ever looks at `blocked_until`.
`acctBlocked` is blocked until instant 100 with free quotas; at instant 200
it is still unavailable and `get_available_account` returns none. -/
theorem blocked_elapsed_counterexample :
    acctBlocked.status = "blocked" ∧ acctBlocked.blocked_until = some 100 ∧
      acctBlocked.dms_sent_today < acctBlocked.daily_limit ∧
      acctBlocked.dms_sent_last_hour < acctBlocked.hourly_limit ∧
      is_available 200 acctBlocked = false ∧
      get_available_account 200 (some [rowBlocked]) (fun _ => some (0, 0)) = none := by
  decide

/-- C5 (amended): an account marked blocked stays unavailable at every later
instant — even after its `blocked_until` cooldown has elapsed — until an
explicit unblock resets its status to `"active"`; after the unblock it is
available whenever its daily and hourly quotas are not exhausted. -/
theorem blocked_status_requires_unblock :
    ∀ (row : AccountRow) (remote remote2 : Option (Nat × Nat)) (now hours now2 : Nat),
      is_available now2 (mkAccount (mark_blocked now hours row) remote) = false ∧
      ((mkAccount (unblock_account row) remote2).dms_sent_today <
          (mkAccount (unblock_account row) remote2).daily_limit →
        (mkAccount (unblock_account row) remote2).dms_sent_last_hour <
          (mkAccount (unblock_account row) remote2).hourly_limit →
        is_available now2 (mkAccount (unblock_account row) remote2) = true) := by
  intro row remote remote2 now hours now2
  constructor
  · simp [is_available, mkAccount, mark_blocked]
  · intro h1 h2
    simp only [mkAccount, unblock_account] at h1 h2 ⊢
    simp [is_available, blocked_in_future]
    omega

/-- Witness for C5's amended theorem: the concrete blocked row stays
unavailable at instant 200 (after its cooldown), and after the explicit
unblock it is available there. -/
theorem blocked_status_requires_unblock_witness :
    is_available 200 (mkAccount (mark_blocked 50 24 rowBlocked) (some (0, 0))) = false ∧
      ((mkAccount (unblock_account rowBlocked) (some (0, 0))).dms_sent_today <
          (mkAccount (unblock_account rowBlocked) (some (0, 0))).daily_limit ∧
        is_available 200 (mkAccount (unblock_account rowBlocked) (some (0, 0))) = true) :=
  ⟨(blocked_status_requires_unblock rowBlocked (some (0, 0)) (some (0, 0)) 50 24 200).1,
    by decide,
    (blocked_status_requires_unblock rowBlocked (some (0, 0)) (some (0, 0)) 50 24 200).2
      (by decide) (by decide)⟩

/-- C6: `get_available_account` returns an available account of the tenant
maximizing the remaining daily quota, ties broken towards the oldest
`last_used_at`, with never-used accounts (null `last_used_at`, sorted as
`datetime.min`) winning ties against any account with a positive stored
timestamp; and in the concrete "acme" scenario — A with 1 send left, B with
40 left and never used — account B is returned. -/
theorem select_maximizes_remaining_quota :
    (∀ (now : Nat) (fetch : Option (List AccountRow))
        (statsOf : String → Option (Nat × Nat)) (a : InstagramAccount),
        (∀ x ∈ get_tenant_accounts fetch statsOf, x.last_used_at ≠ some 0) →
        get_available_account now fetch statsOf = some a →
        is_available now a = true ∧ a ∈ get_tenant_accounts fetch statsOf ∧
          ∀ b ∈ get_tenant_accounts fetch statsOf, is_available now b = true →
            remaining_today b ≤ remaining_today a ∧
            (remaining_today b = remaining_today a → lastUsedKey a ≤ lastUsedKey b) ∧
            (remaining_today b = remaining_today a → b.last_used_at = none →
              a.last_used_at = none)) ∧
    get_available_account 1000 (some [rowA, rowB]) statsAcme = some acctB := by
  constructor
  · intro now fetch statsOf a hpos h
    have hmem := pickBest_mem h
    have hav : is_available now a = true := (List.mem_filter.mp hmem).2
    have hin : a ∈ get_tenant_accounts fetch statsOf := (List.mem_filter.mp hmem).1
    refine ⟨hav, hin, ?_⟩
    intro b hb hbav
    have hbf : b ∈ (get_tenant_accounts fetch statsOf).filter (is_available now) :=
      List.mem_filter.mpr ⟨hb, hbav⟩
    have hnolt : selKeyLt b a = false := pickBest_min h b hbf
    rw [selKeyLt_eq_false_iff] at hnolt
    refine ⟨by omega, by omega, ?_⟩
    intro hrem hbnone
    have hbk : lastUsedKey b = 0 := by simp [lastUsedKey, hbnone]
    have hak : lastUsedKey a = 0 := by omega
    cases hlu : a.last_used_at with
    | none => rfl
    | some t =>
      have : t = 0 := by simp [lastUsedKey, hlu] at hak; omega
      exact absurd (by rw [hlu, this]) (hpos a hin)
  · decide

/-- Witness for C6 at the "acme" scenario: both hypotheses hold there and the
returned account `acctB` is available, belongs to the tenant, and dominates
every available account in remaining quota. -/
theorem select_maximizes_remaining_quota_witness :
    (∀ x ∈ get_tenant_accounts (some [rowA, rowB]) statsAcme, x.last_used_at ≠ some 0) ∧
      (is_available 1000 acctB = true ∧
        acctB ∈ get_tenant_accounts (some [rowA, rowB]) statsAcme ∧
        ∀ b ∈ get_tenant_accounts (some [rowA, rowB]) statsAcme,
          is_available 1000 b = true →
            remaining_today b ≤ remaining_today acctB ∧
            (remaining_today b = remaining_today acctB →
              lastUsedKey acctB ≤ lastUsedKey b) ∧
            (remaining_today b = remaining_today acctB → b.last_used_at = none →
              acctB.last_used_at = none)) :=
  ⟨by decide,
    select_maximizes_remaining_quota.1 1000 (some [rowA, rowB]) statsAcme acctB
      (by decide) (by decide)⟩

/-! ## Claims about the lead scorer -/

/-- The total score is, definitionally, the sum of the four sub-scores. -/
lemma total_score_eq (p : Profile) :
    (calculate_score p).total_score =
      (calculate_score p).bio_score + (calculate_score p).engagement_score +
        (calculate_score p).profile_score + (calculate_score p).recency_score := rfl

/-- The priority field is derived from the total score. -/
lemma priority_eq (p : Profile) :
    (calculate_score p).priority = determine_priority (calculate_score p).total_score := rfl

/-- The engagement sub-score of the minimal "CEO" profile is 0: its 150000
followers fall outside both follower ranges, its follower/following ratio is
150000, and its engagement rate is 0. -/
lemma engagement_C4min : (calculate_score profileC4min).engagement_score = 0 := by
  show calculate_engagement_score profileC4min = 0
  norm_num [calculate_engagement_score, profileC4min]

/-- The engagement sub-score of the favourable "CEO" profile is 20
(ratio 3.0 in range: 10 points; engagement rate 5: 10 points; follower count
still out of range: 0 points). -/
lemma engagement_C4rich : (calculate_score profileC4rich).engagement_score = 20 := by
  show calculate_engagement_score profileC4rich = 20
  norm_num [calculate_engagement_score, profileC4rich]

/-- The engagement sub-score of the profession-free profile is the full 30. -/
lemma engagement_C9 : (calculate_score profileC9).engagement_score = 30 := by
  show calculate_engagement_score profileC9 = 30
  norm_num [calculate_engagement_score, profileC9]

/-- C3: for every profile the total score lies in [0,100] and equals the sum
of the four sub-scores, each independently capped (bio ≤ 30, engagement ≤ 30,
profile-completeness ≤ 25, recency ≤ 15). -/
theorem score_bounds :
    ∀ p : Profile,
      0 ≤ (calculate_score p).total_score ∧ (calculate_score p).total_score ≤ 100 ∧
      (calculate_score p).total_score =
        (calculate_score p).bio_score + (calculate_score p).engagement_score +
          (calculate_score p).profile_score + (calculate_score p).recency_score ∧
      (calculate_score p).bio_score ≤ 30 ∧ (calculate_score p).engagement_score ≤ 30 ∧
      (calculate_score p).profile_score ≤ 25 ∧ (calculate_score p).recency_score ≤ 15 := by
  intro p
  have h1 : (calculate_score p).bio_score ≤ 30 := Nat.min_le_right _ _
  have h2 : (calculate_score p).engagement_score ≤ 30 := Nat.min_le_right _ _
  have h3 : (calculate_score p).profile_score ≤ 25 := Nat.min_le_right _ _
  have h4 : (calculate_score p).recency_score ≤ 15 := Nat.min_le_right _ _
  have heq := total_score_eq p
  exact ⟨Nat.zero_le _, by omega, heq, h1, h2, h3, h4⟩

/-- C4 (refuted): a profile with followers 150000, bio containing "CEO",
public, 120 posts and 3 recent posts is *not* guaranteed a score ≥ 70:
with every other field at its dictionary default such a profile scores 40
(followers = 150000 falls outside both scoring ranges of the engagement
sub-score) and lands in the `cold` tier. -/
theorem hot_scenario_counterexample :
    profileC4min.followers_count = 150000 ∧
      strContains (profileC4min.bio.getD "") "CEO" = true ∧
      profileC4min.is_private = false ∧ profileC4min.posts_count = 120 ∧
      3 ≤ profileC4min.recent_posts ∧
      (calculate_score profileC4min).total_score = 40 ∧
      (calculate_score profileC4min).priority = LeadPriority.cold ∧
      ¬70 ≤ (calculate_score profileC4min).total_score := by
  have hbs : (calculate_score profileC4min).bio_score = 15 := by decide
  have hps : (calculate_score profileC4min).profile_score = 15 := by decide
  have hrs : (calculate_score profileC4min).recency_score = 10 := by decide
  have ht : (calculate_score profileC4min).total_score = 40 := by
    rw [total_score_eq, hbs, engagement_C4min, hps, hrs]
  have hpri : (calculate_score profileC4min).priority = LeadPriority.cold := by
    rw [priority_eq, ht]; decide
  exact ⟨rfl, by decide, rfl, rfl, by decide, ht, hpri, by omega⟩

/-- C4 (amended): a profile with those attributes *can* reach the hot tier —
with a healthy follower/following ratio, engagement rate 5, a business
account, an informative bio and active posting, it scores ≥ 70 and is
classified `hot` — but the attributes alone do not force it. -/
theorem hot_scenario_amended :
    profileC4rich.followers_count = 150000 ∧
      strContains (profileC4rich.bio.getD "") "CEO" = true ∧
      profileC4rich.is_private = false ∧ profileC4rich.posts_count = 120 ∧
      3 ≤ profileC4rich.recent_posts ∧
      70 ≤ (calculate_score profileC4rich).total_score ∧
      (calculate_score profileC4rich).priority = LeadPriority.hot := by
  have hbs : (calculate_score profileC4rich).bio_score = 30 := by decide
  have hps : (calculate_score profileC4rich).profile_score = 25 := by decide
  have hrs : (calculate_score profileC4rich).recency_score = 15 := by decide
  have ht : (calculate_score profileC4rich).total_score = 90 := by
    rw [total_score_eq, hbs, engagement_C4rich, hps, hrs]
  have hpri : (calculate_score profileC4rich).priority = LeadPriority.hot := by
    rw [priority_eq, ht]; decide
  exact ⟨rfl, by decide, rfl, rfl, by decide, by omega, hpri⟩

/-- C9 (refuted): the recommended template depends only on the total score,
not on profession detection: `profileC9` scores exactly 70 with no detected
profession, yet its recommended template is `"ultra_personalized"`. -/
theorem template_without_profession_counterexample :
    (calculate_score profileC9).total_score = 70 ∧
      (calculate_score profileC9).detected_profession = none ∧
      (calculate_score profileC9).recommended_template = "ultra_personalized" := by
  have hbs : (calculate_score profileC9).bio_score = 0 := by decide
  have hps : (calculate_score profileC9).profile_score = 25 := by decide
  have hrs : (calculate_score profileC9).recency_score = 15 := by decide
  have ht : (calculate_score profileC9).total_score = 70 := by
    rw [total_score_eq, hbs, engagement_C9, hps, hrs]
  have e : (calculate_score profileC9).recommended_template =
      recommend_template (calculate_score profileC9).total_score := rfl
  refine ⟨ht, by decide, ?_⟩
  rw [e, ht]
  decide

/-- C9 (amended): for every profile the recommended template is
`"ultra_personalized"` exactly when the total score is ≥ 70,
`"personalized"` exactly when it is in [50,70), and `"standard"` exactly
when it is < 50; profession detection plays no role. -/
theorem template_tier_from_total_only :
    ∀ p : Profile,
      ((calculate_score p).recommended_template = "ultra_personalized" ↔
        70 ≤ (calculate_score p).total_score) ∧
      ((calculate_score p).recommended_template = "personalized" ↔
        50 ≤ (calculate_score p).total_score ∧ (calculate_score p).total_score < 70) ∧
      ((calculate_score p).recommended_template = "standard" ↔
        (calculate_score p).total_score < 50) := by
  intro p
  have e : (calculate_score p).recommended_template =
      recommend_template (calculate_score p).total_score := rfl
  rw [e]
  unfold recommend_template
  split_ifs with h1 h2
  · exact ⟨⟨fun _ => h1, fun _ => rfl⟩,
      ⟨fun hs => absurd hs (by decide), fun hc => absurd h1 (by omega)⟩,
      ⟨fun hs => absurd hs (by decide), fun hc => absurd h1 (by omega)⟩⟩
  · exact ⟨⟨fun hs => absurd hs (by decide), fun hc => absurd hc h1⟩,
      ⟨fun _ => ⟨h2, by omega⟩, fun _ => rfl⟩,
      ⟨fun hs => absurd hs (by decide), fun hc => absurd h2 (by omega)⟩⟩
  · exact ⟨⟨fun hs => absurd hs (by decide), fun hc => absurd hc h1⟩,
      ⟨fun hs => absurd hs (by decide), fun hc => absurd hc.1 h2⟩,
      ⟨fun _ => by omega, fun _ => rfl⟩⟩

/-! ## Claims about the spintax engine -/

/-- A string all of whose characters are non-braces has no spintax match. -/
lemma noBraces_noMatch_list :
    ∀ cs : List Char, cs.all (fun c => c ≠ '{' && c ≠ '}') = true →
      hasSpinMatch cs = false := by
  intro cs h
  induction cs with
  | nil => rfl
  | cons c tl ih =>
    simp only [List.all_cons, Bool.and_eq_true, decide_eq_true_eq] at h
    simp [hasSpinMatch, h.1.1, ih h.2]

/-- When the loop guard `re.search` finds no match, `expand_spintax` returns
its input unchanged. -/
lemma expand_noMatch (picks : List Nat) (s : String)
    (h : hasSpinMatch s.toList = false) : expand_spintax picks s = s := by
  obtain ⟨d⟩ := s
  have h' : hasSpinMatch d = false := h
  show (⟨expandLoop 10 picks d⟩ : String) = ⟨d⟩
  have e : expandLoop 10 picks d = d := by
    rw [expandLoop]
    simp [h']
  rw [e]

/-- C7: spintax expansion is complete on balanced input and total on
malformed input: `\x7ba|b\x7d` expands to `"a"` or `"b"` for every random
stream; any brace-free string is returned unchanged; the nested
`\x7ba|\x7bb|c\x7d\x7d` expands to one of `"a"`, `"b"`, `"c"` with no brace
left in the output; and the malformed `\x7boi` is returned as-is rather than
raising. -/
theorem expand_spintax_balanced :
    (∀ picks : List Nat,
        expand_spintax picks spinAB = "a" ∨ expand_spintax picks spinAB = "b") ∧
    (∀ (s : String) (picks : List Nat), noBraces s = true → expand_spintax picks s = s) ∧
    (∀ picks : List Nat,
        (expand_spintax picks spinNested = "a" ∨ expand_spintax picks spinNested = "b" ∨
          expand_spintax picks spinNested = "c") ∧
        noBraces (expand_spintax picks spinNested) = true) ∧
    (∀ picks : List Nat, expand_spintax picks spinMal = spinMal) := by
  refine ⟨?_, ?_, ?_, ?_⟩
  · intro picks
    rcases picks with _ | ⟨p, r⟩
    · left; decide
    · have e : expand_spintax (p :: r) spinAB =
          ⟨expandLoop 9 r (stripChars (List.getD [['a'], ['b']] (p % 2) []) ++ [])⟩ := rfl
      rcases Nat.mod_two_eq_zero_or_one p with h | h
      · left; rw [e, h]; rfl
      · right; rw [e, h]; rfl
  · intro s picks h
    exact expand_noMatch picks s (noBraces_noMatch_list s.toList h)
  · intro picks
    rcases picks with _ | ⟨p, pr⟩
    · exact ⟨Or.inl (by decide), by decide⟩
    · have e : expand_spintax (p :: pr) spinNested =
          ⟨expandLoop 9 pr
            ('{' :: 'a' :: '|' :: (stripChars (List.getD [['b'], ['c']] (p % 2) []) ++ ['}']))⟩ := rfl
      rcases Nat.mod_two_eq_zero_or_one p with hp | hp
      · rcases pr with _ | ⟨q, r⟩
        · rw [e, hp]; exact ⟨Or.inl rfl, rfl⟩
        · have e2 : (⟨expandLoop 9 (q :: r)
                ('{' :: 'a' :: '|' :: (stripChars (List.getD [['b'], ['c']] 0 []) ++ ['}']))⟩ :
                  String) =
              ⟨expandLoop 8 r (stripChars (List.getD [['a'], ['b']] (q % 2) []) ++ [])⟩ := rfl
          rw [e, hp, e2]
          rcases Nat.mod_two_eq_zero_or_one q with hq | hq
          · rw [hq]; exact ⟨Or.inl rfl, rfl⟩
          · rw [hq]; exact ⟨Or.inr (Or.inl rfl), rfl⟩
      · rcases pr with _ | ⟨q, r⟩
        · rw [e, hp]; exact ⟨Or.inl rfl, rfl⟩
        · have e3 : (⟨expandLoop 9 (q :: r)
                ('{' :: 'a' :: '|' :: (stripChars (List.getD [['b'], ['c']] 1 []) ++ ['}']))⟩ :
                  String) =
              ⟨expandLoop 8 r (stripChars (List.getD [['a'], ['c']] (q % 2) []) ++ [])⟩ := rfl
          rw [e, hp, e3]
          rcases Nat.mod_two_eq_zero_or_one q with hq | hq
          · rw [hq]; exact ⟨Or.inl rfl, rfl⟩
          · rw [hq]; exact ⟨Or.inr (Or.inr rfl), rfl⟩
  · intro picks
    exact expand_noMatch picks spinMal (by decide)

/-- Witness for C7's brace-free clause at a concrete input: `"plain text"`
has no braces and is returned unchanged. -/
theorem expand_spintax_balanced_witness :
    noBraces "plain text" = true ∧ expand_spintax [] "plain text" = "plain text" :=
  ⟨by decide, expand_spintax_balanced.2.1 "plain text" [] (by decide)⟩

/-- C10: whitespace around the delimiters of a spintax group never survives
expansion — the chosen alternative is stripped, so `\x7b a | b \x7d` expands
to exactly `"a"` or `"b"` for every random stream. -/
theorem expand_spintax_strips_whitespace :
    ∀ picks : List Nat,
      expand_spintax picks spinSpaced = "a" ∨ expand_spintax picks spinSpaced = "b" := by
  intro picks
  rcases picks with _ | ⟨p, r⟩
  · left; decide
  · have e : expand_spintax (p :: r) spinSpaced =
        ⟨expandLoop 9 r
          (stripChars (List.getD [[' ', 'a', ' '], [' ', 'b', ' ']] (p % 2) []) ++ [])⟩ := rfl
    rcases Nat.mod_two_eq_zero_or_one p with h | h
    · left; rw [e, h]; rfl
    · right; rw [e, h]; rfl

/-! ## Claims about the rate limiter -/

/-- Evaluation of `is_allowed` on the admit path (purged count below the
limit). -/
lemma is_allowed_accept (m w : Nat) (ts : List ℚ) (now : ℚ)
    (h : (ts.filter (fun t => now - (w : ℚ) < t)).length < m) :
    is_allowed m w ts now =
      (true,
        { limit := m
          remaining :=
            max 0 ((m : Int) - (ts.filter (fun t => now - (w : ℚ) < t)).length) - 1
          reset :=
            max 0 (if (ts.filter (fun t => now - (w : ℚ) < t)).length ≠ 0 then
                Rat.floor (listMin (ts.filter (fun t => now - (w : ℚ) < t)) + (w : ℚ) - now)
              else (w : Int))
          window := w },
        ts.filter (fun t => now - (w : ℚ) < t) ++ [now]) := by
  unfold is_allowed
  rw [if_neg (by omega)]

/-- Evaluation of `is_allowed` on the reject path (purged count at or above
the limit). -/
lemma is_allowed_reject (m w : Nat) (ts : List ℚ) (now : ℚ)
    (h : m ≤ (ts.filter (fun t => now - (w : ℚ) < t)).length) :
    is_allowed m w ts now =
      (false,
        { limit := m
          remaining := max 0 ((m : Int) - (ts.filter (fun t => now - (w : ℚ) < t)).length)
          reset :=
            max 0 (if (ts.filter (fun t => now - (w : ℚ) < t)).length ≠ 0 then
                Rat.floor (listMin (ts.filter (fun t => now - (w : ℚ) < t)) + (w : ℚ) - now)
              else (w : Int))
          window := w },
        ts.filter (fun t => now - (w : ℚ) < t)) := by
  unfold is_allowed
  rw [if_pos h]

/-- A filter keeping every element of the list. -/
lemma filter_keep_all (now : ℚ) (w : Nat) (ts : List ℚ)
    (h : ∀ t ∈ ts, now - (w : ℚ) < t) :
    ts.filter (fun t => now - (w : ℚ) < t) = ts :=
  List.filter_eq_self.mpr (fun a ha => by simpa using h a ha)

/-- C8: each `is_allowed` call first purges timestamps that have left the
window, rejects (leaving the purged list in place, with `reset` the clamped
time until the oldest kept timestamp exits the window) exactly when the
purged count has reached the limit, and otherwise appends `now` and reports
`remaining = max_requests - count - 1`; and with `max=3, window=60`, four
calls of one client inside a window yield allow/allow/allow/reject with
remaining 2, 1, 0 and a final `reset ≤ 60`. -/
theorem rate_limiter_sliding_window :
    (∀ (m w : Nat) (ts : List ℚ) (now : ℚ),
        ((is_allowed m w ts now).1 = false ↔
          m ≤ (ts.filter (fun t => now - (w : ℚ) < t)).length) ∧
        ((ts.filter (fun t => now - (w : ℚ) < t)).length < m →
          (is_allowed m w ts now).2.2 = ts.filter (fun t => now - (w : ℚ) < t) ++ [now] ∧
          (is_allowed m w ts now).2.1.remaining =
            (m : Int) - (ts.filter (fun t => now - (w : ℚ) < t)).length - 1) ∧
        (m ≤ (ts.filter (fun t => now - (w : ℚ) < t)).length →
          (is_allowed m w ts now).2.2 = ts.filter (fun t => now - (w : ℚ) < t) ∧
          ((ts.filter (fun t => now - (w : ℚ) < t)).length ≠ 0 →
            (is_allowed m w ts now).2.1.reset =
              max 0 (Rat.floor
                (listMin (ts.filter (fun t => now - (w : ℚ) < t)) + (w : ℚ) - now))))) ∧
    (∀ t0 t1 t2 t3 : ℚ, t0 ≤ t1 → t1 ≤ t2 → t2 ≤ t3 → t3 < t0 + 60 →
        (is_allowed 3 60 [] t0).1 = true ∧
        (is_allowed 3 60 [] t0).2.1.remaining = 2 ∧
        (is_allowed 3 60 ((is_allowed 3 60 [] t0).2.2) t1).1 = true ∧
        (is_allowed 3 60 ((is_allowed 3 60 [] t0).2.2) t1).2.1.remaining = 1 ∧
        (is_allowed 3 60
            ((is_allowed 3 60 ((is_allowed 3 60 [] t0).2.2) t1).2.2) t2).1 = true ∧
        (is_allowed 3 60
            ((is_allowed 3 60 ((is_allowed 3 60 [] t0).2.2) t1).2.2) t2).2.1.remaining = 0 ∧
        (is_allowed 3 60
            ((is_allowed 3 60
              ((is_allowed 3 60 ((is_allowed 3 60 [] t0).2.2) t1).2.2) t2).2.2) t3).1 =
          false ∧
        (is_allowed 3 60
            ((is_allowed 3 60
              ((is_allowed 3 60 ((is_allowed 3 60 [] t0).2.2) t1).2.2) t2).2.2) t3).2.1.reset ≤
          60) := by
  constructor
  · intro m w ts now
    refine ⟨?_, ?_, ?_⟩
    · by_cases h : m ≤ (ts.filter (fun t => now - (w : ℚ) < t)).length
      · rw [is_allowed_reject m w ts now h]
        simpa using h
      · rw [is_allowed_accept m w ts now (by omega)]
        simpa using h
    · intro h
      rw [is_allowed_accept m w ts now h]
      refine ⟨rfl, ?_⟩
      show max 0 ((m : Int) - (ts.filter (fun t => now - (w : ℚ) < t)).length) - 1 = _
      omega
    · intro h
      rw [is_allowed_reject m w ts now h]
      exact ⟨rfl, fun hne => by simp [hne]⟩
  · intro t0 t1 t2 t3 h01 h12 h23 hw
    have hc60 : ((60 : Nat) : ℚ) = (60 : ℚ) := by norm_num
    have h03 : t0 ≤ t3 := le_trans h01 (le_trans h12 h23)
    have h13 : t1 ≤ t3 := le_trans h12 h23
    -- call 1: empty store
    have hf1 : ([] : List ℚ).filter (fun t => t0 - ((60 : Nat) : ℚ) < t) = [] := rfl
    have e1 := is_allowed_accept 3 60 [] t0 (by rw [hf1]; decide)
    have hst1 : (is_allowed 3 60 [] t0).2.2 = [t0] := by rw [e1, hf1]; rfl
    -- call 2: store [t0]
    have hf2 : [t0].filter (fun t => t1 - ((60 : Nat) : ℚ) < t) = [t0] := by
      refine filter_keep_all t1 60 [t0] ?_
      intro t ht
      rw [List.mem_singleton] at ht
      subst ht
      rw [hc60]
      linarith
    have e2 := is_allowed_accept 3 60 [t0] t1 (by rw [hf2]; simp)
    have hst2 : (is_allowed 3 60 [t0] t1).2.2 = [t0, t1] := by rw [e2, hf2]; rfl
    -- call 3: store [t0, t1]
    have hf3 : [t0, t1].filter (fun t => t2 - ((60 : Nat) : ℚ) < t) = [t0, t1] := by
      refine filter_keep_all t2 60 [t0, t1] ?_
      intro t ht
      rw [hc60]
      rcases List.mem_cons.mp ht with rfl | ht
      · linarith
      · rw [List.mem_singleton] at ht
        subst ht
        linarith
    have e3 := is_allowed_accept 3 60 [t0, t1] t2 (by rw [hf3]; simp)
    have hst3 : (is_allowed 3 60 [t0, t1] t2).2.2 = [t0, t1, t2] := by rw [e3, hf3]; rfl
    -- call 4: store [t0, t1, t2], rejected
    have hf4 : [t0, t1, t2].filter (fun t => t3 - ((60 : Nat) : ℚ) < t) = [t0, t1, t2] := by
      refine filter_keep_all t3 60 [t0, t1, t2] ?_
      intro t ht
      rw [hc60]
      rcases List.mem_cons.mp ht with rfl | ht
      · linarith
      rcases List.mem_cons.mp ht with rfl | ht
      · linarith
      rw [List.mem_singleton] at ht
      subst ht
      linarith
    have e4 := is_allowed_reject 3 60 [t0, t1, t2] t3 (by rw [hf4]; simp)
    have hmin : listMin [t0, t1, t2] = t0 := by
      show min (min t0 t1) t2 = t0
      rw [min_eq_left h01, min_eq_left (le_trans h01 h12)]
    have hfloor : Rat.floor (t0 + ((60 : Nat) : ℚ) - t3) ≤ 60 := by
      by_contra hcon
      have h61 : (61 : Int) ≤ Rat.floor (t0 + ((60 : Nat) : ℚ) - t3) := by omega
      have := Rat.le_floor.mp h61
      rw [hc60] at this
      push_cast at this
      linarith
    have hreset :
        (is_allowed 3 60 [t0, t1, t2] t3).2.1.reset =
          max 0 (Rat.floor (t0 + ((60 : Nat) : ℚ) - t3)) := by
      rw [e4, hf4]
      show max 0 (if ([t0, t1, t2] : List ℚ).length ≠ 0 then
          Rat.floor (listMin [t0, t1, t2] + ((60 : Nat) : ℚ) - t3) else ((60 : Nat) : Int)) = _
      rw [if_pos (by simp)]
      rw [hmin]
    refine ⟨by rw [e1, hf1], by rw [e1, hf1]; norm_num, ?_, ?_, ?_, ?_, ?_, ?_⟩
    · rw [hst1, e2, hf2]
    · rw [hst1, e2, hf2]; norm_num
    · rw [hst1, hst2, e3, hf3]
    · rw [hst1, hst2, e3, hf3]; norm_num
    · rw [hst1, hst2, hst3, e4, hf4]
    · rw [hst1, hst2, hst3, hreset]
      have : (0 : Int) ≤ 60 := by decide
      omega

/-- Witness for C8 at concrete call times 0, 1, 2, 3 (all within one
60-second window): allow/allow/allow/reject with remaining 2, 1, 0 and final
reset at most 60. -/
theorem rate_limiter_sliding_window_witness :
    ((0 : ℚ) ≤ 1 ∧ (1 : ℚ) ≤ 2 ∧ (2 : ℚ) ≤ 3 ∧ (3 : ℚ) < 0 + 60) ∧
      ((is_allowed 3 60 [] 0).1 = true ∧
        (is_allowed 3 60 [] 0).2.1.remaining = 2 ∧
        (is_allowed 3 60 ((is_allowed 3 60 [] 0).2.2) 1).1 = true ∧
        (is_allowed 3 60 ((is_allowed 3 60 [] 0).2.2) 1).2.1.remaining = 1 ∧
        (is_allowed 3 60
            ((is_allowed 3 60 ((is_allowed 3 60 [] 0).2.2) 1).2.2) 2).1 = true ∧
        (is_allowed 3 60
            ((is_allowed 3 60 ((is_allowed 3 60 [] 0).2.2) 1).2.2) 2).2.1.remaining = 0 ∧
        (is_allowed 3 60
            ((is_allowed 3 60
              ((is_allowed 3 60 ((is_allowed 3 60 [] 0).2.2) 1).2.2) 2).2.2) 3).1 = false ∧
        (is_allowed 3 60
            ((is_allowed 3 60
              ((is_allowed 3 60 ((is_allowed 3 60 [] 0).2.2) 1).2.2) 2).2.2) 3).2.1.reset ≤
          60) :=
  ⟨⟨by norm_num, by norm_num, by norm_num, by norm_num⟩,
    rate_limiter_sliding_window.2 0 1 2 3 (by norm_num) (by norm_num) (by norm_num)
      (by norm_num)⟩

end AgenticOS
